import Mathlib

/-
Verification of the business-ingestion pipeline (src/routes/scraper.js).

Strings are modelled as lists of characters so that every operation is a
computable, kernel-reducible Lean function.  Each definition below is a
direct translation of the corresponding JavaScript in the source file:
the JS falsy coalescing `x || d` is modelled explicitly (empty string and
zero are falsy), external collaborators (place search, persistence pool,
generation service) are passed in as explicit oracles, and the wall-clock
timestamp `new Date()` is an explicit `now` parameter.  Fractional vendor
numbers (rating, coordinates) are modelled as integers: no claim depends
on fractional values, only on presence/absence and the falsy-zero rule.
-/

abbrev Str := List Char

/-- ASCII lower-case alphanumeric test, the character class `[a-z0-9]` of
the slug regex in scraper.js line 184. -/
def isLowerAlnum (c : Char) : Bool :=
  (('a' ≤ c) && (c ≤ 'z')) || (('0' ≤ c) && (c ≤ '9'))

/-- Characters allowed in a slug: `[a-z0-9-]`. -/
def goodChar (c : Char) : Bool :=
  isLowerAlnum c || c == '-'

/-- JS `String.prototype.trim` (ASCII whitespace suffices for the data here). -/
def trimStr (s : Str) : Str :=
  ((s.dropWhile Char.isWhitespace).reverse.dropWhile Char.isWhitespace).reverse

/-- JS `String.prototype.toLowerCase` restricted to ASCII. -/
def toLowerStr (s : Str) : Str :=
  s.map Char.toLower

/-- JS `s.split(',')`: never returns an empty list; `''.split(',')` is `['']`. -/
def splitComma : Str → List Str
  | [] => [[]]
  | c :: rest =>
    let r := splitComma rest
    if c = ',' then [] :: r
    else
      match r with
      | [] => [[c]]
      | h :: t => (c :: h) :: t

/-- Prefix test used to implement JS `String.prototype.includes`. -/
def isPrefixOfStr : Str → Str → Bool
  | [], _ => true
  | _ :: _, [] => false
  | c :: p, d :: s => c == d && isPrefixOfStr p s

/-- JS `haystack.includes(needle)`. -/
def containsStr : Str → Str → Bool
  | [], sub => isPrefixOfStr sub []
  | c :: rest, sub => isPrefixOfStr sub (c :: rest) || containsStr rest sub

/-- JS `s.replace(/_/g, ' ')` (scraper.js line 151). -/
def underscoresToSpaces (s : Str) : Str :=
  s.map (fun c => if c = '_' then ' ' else c)

/-- JS falsy coalescing `x || d` for an optional string: both `undefined`
and the empty string fall back to the default. -/
def jsOrStr (x : Option Str) (d : Str) : Str :=
  match x with
  | some s => if s = [] then d else s
  | none => d

/-- JS `x || null` for an optional string: empty string becomes null. -/
def jsStrOrNull (x : Option Str) : Option Str :=
  match x with
  | some s => if s = [] then none else some s
  | none => none

/-- JS `x || null` for an optional number: zero becomes null. -/
def jsNumOrNull (x : Option Int) : Option Int :=
  match x with
  | some v => if v = 0 then none else some v
  | none => none

/-- One pass of JS `name.replace(/[^a-z0-9]+/g, '-')`: every maximal run
of characters outside `[a-z0-9]` collapses to a single hyphen.  The flag
records whether the previous character belonged to such a run. -/
def replaceRunsAux : Bool → Str → Str
  | _, [] => []
  | inRun, c :: cs =>
    if isLowerAlnum c then c :: replaceRunsAux false cs
    else if inRun then replaceRunsAux true cs
    else '-' :: replaceRunsAux true cs

def replaceRuns (s : Str) : Str :=
  replaceRunsAux false s

/-- Remove a single leading hyphen, half of JS `replace(/(^-|-$)/g, '')`. -/
def dropOneLead : Str → Str
  | [] => []
  | c :: t => if c = '-' then t else c :: t

/-- JS `s.replace(/(^-|-$)/g, '')`: removes exactly one leading and one
trailing hyphen (the regex anchors match at most once each on the
original string). -/
def stripEdge (s : Str) : Str :=
  (dropOneLead ((dropOneLead s).reverse)).reverse

/-- The name part of the slug (scraper.js line 184):
`name.toLowerCase().replace(/[^a-z0-9]+/g, '-').replace(/(^-|-$)/g, '')`. -/
def slugBase (name : Str) : Str :=
  stripEdge (replaceRuns (toLowerStr name))

/-- The full slug: name part, a hyphen, and `place.id.substring(0, 8)`. -/
def buildSlug (name pid : Str) : Str :=
  slugBase name ++ '-' :: pid.take 8

/-- Configuration value from the BusinessScraper constructor. -/
structure Municipality where
  name : Str
  state : Str

/-- The constructor default `{ name: 'Fair Lawn', state: 'NJ' }`. -/
def fairLawn : Municipality :=
  { name := "Fair Lawn".data, state := "NJ".data }

/-- A raw candidate as returned by the place search.  `location.latitude`
and `location.longitude` are flattened into optional fields; a missing
`location` object is the `none` case. -/
structure Place where
  id : Option Str
  displayName : Option Str
  formattedAddress : Option Str
  primaryType : Option Str
  nationalPhoneNumber : Option Str
  websiteUri : Option Str
  googleMapsUri : Option Str
  latitude : Option Int
  longitude : Option Int
  rating : Option Int
  userRatingCount : Option Int
  priceLevel : Option Str
  regularOpeningHours : Option Nat

/-- Result of `validateLocation` (scraper.js lines 27-43). -/
structure LocationVerdict where
  isValid : Bool
  detectedCity : Str
  reason : Option Str
deriving DecidableEq

/-- The normalized record built by `processBusiness` (scraper.js 181-204). -/
structure BusinessRecord where
  google_place_id : Option Str
  name : Str
  slug : Str
  category : Str
  subcategory : Str
  description : Option Str
  street : Str
  city : Str
  state : Str
  zip : Str
  phone : Option Str
  website : Option Str
  google_maps_url : Option Str
  latitude : Option Int
  longitude : Option Int
  rating : Option Int
  total_ratings : Int
  price_level : Option Nat
  opening_hours : Option Nat
  keywords : List Str
  status : Str
  scraped_at : Nat
deriving DecidableEq

/-- The persistence collaborator: an existence query keyed by the external
identifier, returning the matching rows or a query error. -/
abbrev Pool := Option Str → Except Str (List Nat)

/-- Outcome of the two generation-service calls for one candidate:
`Except.error` models a thrown/transport error inside the call. -/
structure Enrichment where
  descriptionResult : Except Str Str
  keywordsResult : Except Str Str

/-- `generateDescription` (scraper.js 110-126): the generated text, or
null when the generation call fails. -/
def runDescription (e : Except Str Str) : Option Str :=
  match e with
  | Except.ok t => some t
  | Except.error _ => none

/-- `generateKeywords` (scraper.js 129-146): split the generated text on
commas and trim, or the empty list when the call fails. -/
def runKeywords (e : Except Str Str) : List Str :=
  match e with
  | Except.ok t => (splitComma t).map trimStr
  | Except.error _ => []

/-- `convertPriceLevel`'s lookup table (scraper.js 16-22). -/
def priceLevelMap : List (Str × Nat) :=
  [("PRICE_LEVEL_FREE".data, 0),
   ("PRICE_LEVEL_INEXPENSIVE".data, 1),
   ("PRICE_LEVEL_MODERATE".data, 2),
   ("PRICE_LEVEL_EXPENSIVE".data, 3),
   ("PRICE_LEVEL_VERY_EXPENSIVE".data, 4)]

/-- `convertPriceLevel` (scraper.js 15-25): `priceLevelMap[priceLevel] || null`.
The JS `||` treats the looked-up value 0 as falsy, so a looked-up 0 also
becomes null. -/
def convertPriceLevel (priceLevel : Option Str) : Option Nat :=
  match priceLevel with
  | none => none
  | some s =>
    match priceLevelMap.lookup s with
    | some v => if v = 0 then none else some v
    | none => none

/-- `categorizeType`'s lookup table (scraper.js 209-269). -/
def categoryMap : List (Str × Str) :=
  [("plumber".data, "Home Services".data),
   ("electrician".data, "Home Services".data),
   ("roofing_contractor".data, "Home Services".data),
   ("painter".data, "Home Services".data),
   ("general_contractor".data, "Home Services".data),
   ("locksmith".data, "Home Services".data),
   ("moving_company".data, "Home Services".data),
   ("restaurant".data, "Food & Dining".data),
   ("cafe".data, "Food & Dining".data),
   ("bakery".data, "Food & Dining".data),
   ("pizza_restaurant".data, "Food & Dining".data),
   ("bar".data, "Food & Dining".data),
   ("meal_delivery".data, "Food & Dining".data),
   ("meal_takeaway".data, "Food & Dining".data),
   ("doctor".data, "Healthcare".data),
   ("dentist".data, "Healthcare".data),
   ("pharmacy".data, "Healthcare".data),
   ("physiotherapist".data, "Healthcare".data),
   ("veterinary_care".data, "Healthcare".data),
   ("hair_care".data, "Personal Care".data),
   ("beauty_salon".data, "Personal Care".data),
   ("spa".data, "Personal Care".data),
   ("gym".data, "Personal Care".data),
   ("laundry".data, "Personal Care".data),
   ("supermarket".data, "Retail".data),
   ("convenience_store".data, "Retail".data),
   ("hardware_store".data, "Retail".data),
   ("clothing_store".data, "Retail".data),
   ("shoe_store".data, "Retail".data),
   ("florist".data, "Retail".data),
   ("jewelry_store".data, "Retail".data),
   ("lawyer".data, "Professional Services".data),
   ("accounting".data, "Professional Services".data),
   ("insurance_agency".data, "Professional Services".data),
   ("real_estate_agency".data, "Professional Services".data),
   ("car_repair".data, "Automotive".data),
   ("car_wash".data, "Automotive".data),
   ("car_dealer".data, "Automotive".data),
   ("gas_station".data, "Automotive".data),
   ("bank".data, "Financial".data),
   ("atm".data, "Financial".data),
   ("lodging".data, "Hospitality".data),
   ("school".data, "Education".data),
   ("library".data, "Education".data)]

/-- `categorizeType` (scraper.js 208-272): `categoryMap[type] || 'Services'`. -/
def categorizeType (ptype : Option Str) : Str :=
  match ptype with
  | none => "Services".data
  | some t =>
    match categoryMap.lookup t with
    | some c => if c = [] then "Services".data else c
    | none => "Services".data

/-- `validateLocation` (scraper.js 27-43). -/
def validateLocation (muni : Municipality) (formattedAddress : Str) : LocationVerdict :=
  let addressParts := (splitComma formattedAddress).map trimStr
  let cityStatePart := (addressParts.get? 1).getD []
  let cityMatch := containsStr (toLowerStr cityStatePart) (toLowerStr muni.name)
  { isValid := cityMatch
    detectedCity := cityStatePart
    reason :=
      if cityMatch then none
      else some ("Business located in ".data ++ cityStatePart ++ ", not ".data ++ muni.name) }

/-- `checkDuplicate` (scraper.js 45-58): false with no pool, fail-open
false on a query error, otherwise true exactly when rows came back. -/
def checkDuplicate (googlePlaceId : Option Str) (pool : Option Pool) : Bool :=
  match pool with
  | none => false
  | some q =>
    match q googlePlaceId with
    | Except.ok rows => decide (0 < rows.length)
    | Except.error _ => false

/-- The record literal of `processBusiness` (scraper.js 181-204), built
once the candidate has survived both checks and `place.id` is present. -/
def mkRecord (muni : Municipality) (place : Place) (enrich : Enrichment)
    (now : Nat) (pid : Str) : BusinessRecord :=
  let name := jsOrStr place.displayName ("Unknown".data)
  let businessType := jsOrStr (place.primaryType.map underscoresToSpaces) ("business".data)
  let address := jsOrStr place.formattedAddress []
  let addressParts := splitComma address
  let street := jsOrStr ((addressParts.get? 0).map trimStr) []
  let zip := jsOrStr ((addressParts.get? 2).map trimStr) []
  { google_place_id := place.id
    name := name.take 255
    slug := buildSlug name pid
    category := categorizeType place.primaryType
    subcategory := businessType
    description := runDescription enrich.descriptionResult
    street := street
    city := muni.name
    state := muni.state.take 20
    zip := zip.take 10
    phone := jsStrOrNull place.nationalPhoneNumber
    website := jsStrOrNull place.websiteUri
    google_maps_url := jsStrOrNull place.googleMapsUri
    latitude := jsNumOrNull place.latitude
    longitude := jsNumOrNull place.longitude
    rating := jsNumOrNull place.rating
    total_ratings := place.userRatingCount.getD 0
    price_level := convertPriceLevel place.priceLevel
    opening_hours := place.regularOpeningHours
    keywords := runKeywords enrich.keywordsResult
    status := "pending".data
    scraped_at := now }

/-- `processBusiness` (scraper.js 149-205).  Returns the orchestration
outcome (an uncaught exception, a skipped candidate, or a record) paired
with the number of generation-service calls made.  The duplicate check
runs first, then location validation; both generation calls happen before
the record literal is built, so a missing `place.id` throws at the slug
(`place.id.substring(0, 8)`) only after the two calls were made. -/
def processBusiness (muni : Municipality) (place : Place) (pool : Option Pool)
    (enrich : Enrichment) (now : Nat) : Except Unit (Option BusinessRecord) × Nat :=
  if checkDuplicate place.id pool then (Except.ok none, 0)
  else if !(validateLocation muni (jsOrStr place.formattedAddress [])).isValid then
    (Except.ok none, 0)
  else
    match place.id with
    | none => (Except.error (), 2)
    | some pid => (Except.ok (some (mkRecord muni place enrich now pid)), 2)

/-- The inner candidate loop of `scrapeBusinessesByTypes` (scraper.js
282-292): process each place in order, keep the non-null results, let any
thrown error escape, and accumulate the generation-call count. -/
def processPlaces (muni : Municipality) (pool : Option Pool)
    (enrichOf : Place → Enrichment) (now : Nat) :
    List Place → Except Unit (List BusinessRecord) × Nat
  | [] => (Except.ok [], 0)
  | p :: ps =>
    match processBusiness muni p pool (enrichOf p) now with
    | (Except.error e, c) => (Except.error e, c)
    | (Except.ok ob, c) =>
      match processPlaces muni pool enrichOf now ps with
      | (Except.error e, c2) => (Except.error e, c + c2)
      | (Except.ok l, c2) =>
        (Except.ok (match ob with | some b => b :: l | none => l), c + c2)

/-- `scrapeBusinessesByTypes` (scraper.js 275-296), the pipeline entry
point.  The place search is an oracle `search term maxPerType`; per-term
results are concatenated in discovery order, and a thrown error inside
the loop aborts the whole batch. -/
def scrapeBusinessesByTypes (muni : Municipality) (search : Str → Nat → List Place)
    (pool : Option Pool) (enrichOf : Place → Enrichment) (now : Nat) :
    List Str → Nat → Except Unit (List BusinessRecord) × Nat
  | [], _ => (Except.ok [], 0)
  | t :: ts, maxPerType =>
    match processPlaces muni pool enrichOf now (search t maxPerType) with
    | (Except.error e, c) => (Except.error e, c)
    | (Except.ok l, c) =>
      match scrapeBusinessesByTypes muni search pool enrichOf now ts maxPerType with
      | (Except.error e, c2) => (Except.error e, c + c2)
      | (Except.ok l2, c2) => (Except.ok (l ++ l2), c + c2)

/-! Concrete scenario data used by the end-to-end claims. -/

def apos : Char := Char.ofNat 39

def joeName : Str := "Joe".data ++ apos :: "s Bakery".data

def joeId : Str := "abcd1234xyz".data

def joeAddr : Str := "10 Main St, Fair Lawn, NJ 07410, USA".data

def basePlace : Place :=
  { id := some joeId
    displayName := some joeName
    formattedAddress := some joeAddr
    primaryType := some ("bakery".data)
    nationalPhoneNumber := none
    websiteUri := none
    googleMapsUri := none
    latitude := none
    longitude := none
    rating := none
    userRatingCount := none
    priceLevel := none
    regularOpeningHours := none }

def paramusPlace : Place :=
  { basePlace with formattedAddress := some ("50 Oak Ave, Paramus, NJ 07652, USA".data) }

def bangPlace : Place :=
  { basePlace with displayName := some ("!!!".data) }

def upperIdPlace : Place :=
  { basePlace with id := some ("ABCD1234xyz".data) }

def noIdPlace : Place :=
  { basePlace with id := none }

def bareTypePlace : Place :=
  { basePlace with displayName := none, primaryType := none }

def noAddrPlace : Place :=
  { basePlace with formattedAddress := none }

def zipBPlace : Place :=
  { basePlace with formattedAddress := some ("10 Main St, Fair Lawn, OTHERZIP99, USA".data) }

def emptyPool : Pool := fun _ => Except.ok []

def hitPool : Pool := fun _ => Except.ok [1]

def failPool : Pool := fun _ => Except.error ("boom".data)

def okEnrich : Enrichment :=
  { descriptionResult := Except.ok ("A friendly neighborhood bakery.".data)
    keywordsResult := Except.ok ("bakery, fair lawn bakery, fresh bread".data) }

def joeSearch : Str → Nat → List Place := fun _ _ => [basePlace]

/-! Helper lemmas about the substring test. -/

lemma isPrefixOfStr_append (s q : Str) : isPrefixOfStr s (s ++ q) = true := by
  induction s with
  | nil => rfl
  | cons c p ih => simp [isPrefixOfStr, ih]

lemma isPrefixOfStr_self (s : Str) : isPrefixOfStr s s = true := by
  have h := isPrefixOfStr_append s []
  simpa using h

lemma containsStr_append (p t s : Str) (h : isPrefixOfStr s t = true) :
    containsStr (p ++ t) s = true := by
  induction p with
  | nil =>
    cases t with
    | nil => simpa [containsStr] using h
    | cons c r => simp [containsStr, h]
  | cons c p ih => simp [containsStr, ih]

/-! Projections used to state concrete counterexamples about pipeline runs. -/

/-- The slug of the single record of a one-record pipeline result. -/
def scrapedSlug (r : Except Unit (List BusinessRecord) × Nat) : Option Str :=
  match r.1 with
  | Except.ok [b] => some b.slug
  | _ => none

/-- The slug of the record produced by one `processBusiness` run. -/
def processedSlug (r : Except Unit (Option BusinessRecord) × Nat) : Option Str :=
  match r.1 with
  | Except.ok (some b) => some b.slug
  | _ => none

/-- The record produced by one `processBusiness` run. -/
def processedRec (r : Except Unit (Option BusinessRecord) × Nat) : Option BusinessRecord :=
  match r.1 with
  | Except.ok ob => ob
  | _ => none

/-- The zip field of the record produced by one `processBusiness` run. -/
def processedZip (r : Except Unit (Option BusinessRecord) × Nat) : Option Str :=
  match r.1 with
  | Except.ok (some b) => some b.zip
  | _ => none

/-! Control-flow shape of a successful `processBusiness` run. -/

lemma processBusiness_ok_shape (muni : Municipality) (place : Place) (pool : Option Pool)
    (enrich : Enrichment) (now : Nat) (rec : BusinessRecord)
    (h : (processBusiness muni place pool enrich now).1 = Except.ok (some rec)) :
    ∃ pid, place.id = some pid ∧ rec = mkRecord muni place enrich now pid := by
  cases hid : place.id with
  | none =>
    unfold processBusiness at h
    rw [hid] at h
    by_cases hdup : checkDuplicate none pool
    · simp [hdup] at h
    · by_cases hval : (validateLocation muni (jsOrStr place.formattedAddress [])).isValid
      · simp [hdup, hval] at h
      · simp [hdup, hval] at h
  | some pid =>
    unfold processBusiness at h
    rw [hid] at h
    by_cases hdup : checkDuplicate (some pid) pool
    · simp [hdup] at h
    · by_cases hval : (validateLocation muni (jsOrStr place.formattedAddress [])).isValid
      · simp [hdup, hval] at h
        exact ⟨pid, rfl, h.symm⟩
      · simp [hdup, hval] at h

/-- C3: the location validator splits the address on commas, trims each
segment, treats the second segment (empty if absent) as the city segment,
accepts exactly when that segment contains the municipality name
case-insensitively, and whenever it rejects it returns a reason that
contains both the detected segment and the expected municipality name;
on "50 Oak Ave, Paramus, NJ 07652, USA" with municipality "Fair Lawn" it
rejects with a reason referencing "Paramus". -/
theorem claim3_location_validator_contract :
    (∀ (muni : Municipality) (addr : Str),
      (validateLocation muni addr).isValid
          = containsStr
              (toLowerStr ((((splitComma addr).map trimStr).get? 1).getD []))
              (toLowerStr muni.name)
        ∧ (validateLocation muni addr).detectedCity
          = (((splitComma addr).map trimStr).get? 1).getD []
        ∧ ((validateLocation muni addr).isValid = false →
            ∃ msg, (validateLocation muni addr).reason = some msg
              ∧ containsStr msg ((((splitComma addr).map trimStr).get? 1).getD []) = true
              ∧ containsStr msg muni.name = true))
    ∧ (validateLocation fairLawn ("50 Oak Ave, Paramus, NJ 07652, USA".data)).isValid = false
    ∧ (∃ msg,
        (validateLocation fairLawn ("50 Oak Ave, Paramus, NJ 07652, USA".data)).reason = some msg
          ∧ containsStr msg ("Paramus".data) = true) := by
  have main : ∀ (muni : Municipality) (addr : Str),
      (validateLocation muni addr).isValid
          = containsStr
              (toLowerStr ((((splitComma addr).map trimStr).get? 1).getD []))
              (toLowerStr muni.name)
        ∧ (validateLocation muni addr).detectedCity
          = (((splitComma addr).map trimStr).get? 1).getD []
        ∧ ((validateLocation muni addr).isValid = false →
            ∃ msg, (validateLocation muni addr).reason = some msg
              ∧ containsStr msg ((((splitComma addr).map trimStr).get? 1).getD []) = true
              ∧ containsStr msg muni.name = true) := by
    intro muni addr
    refine ⟨rfl, rfl, ?_⟩
    intro hf
    have hf' : containsStr
        (toLowerStr ((((splitComma addr).map trimStr).get? 1).getD []))
        (toLowerStr muni.name) = false := hf
    refine ⟨"Business located in ".data
        ++ (((splitComma addr).map trimStr).get? 1).getD []
        ++ ", not ".data ++ muni.name, ?_, ?_, ?_⟩
    · show (if containsStr
          (toLowerStr ((((splitComma addr).map trimStr).get? 1).getD []))
          (toLowerStr muni.name) then (none : Option Str)
        else some ("Business located in ".data
          ++ (((splitComma addr).map trimStr).get? 1).getD []
          ++ ", not ".data ++ muni.name)) = _
      rw [hf']
      simp
    · have h := containsStr_append ("Business located in ".data)
        ((((splitComma addr).map trimStr).get? 1).getD [] ++ (", not ".data ++ muni.name))
        ((((splitComma addr).map trimStr).get? 1).getD [])
        (isPrefixOfStr_append _ _)
      simpa [List.append_assoc] using h
    · have h := containsStr_append
        ("Business located in ".data
          ++ (((splitComma addr).map trimStr).get? 1).getD [] ++ ", not ".data)
        muni.name muni.name (isPrefixOfStr_self _)
      simpa [List.append_assoc] using h
  refine ⟨main, by decide, ?_⟩
  have h := (main fairLawn ("50 Oak Ave, Paramus, NJ 07652, USA".data)).2.2 (by decide)
  obtain ⟨msg, hmsg, hseg, _⟩ := h
  exact ⟨msg, hmsg, by simpa using hseg⟩

/-- Closed instance of C3's contract at a concrete rejecting input. -/
theorem claim3_witness :
    ∃ msg,
      (validateLocation fairLawn ("50 Oak Ave, Paramus, NJ 07652, USA".data)).reason = some msg
        ∧ containsStr msg
            ((((splitComma ("50 Oak Ave, Paramus, NJ 07652, USA".data)).map trimStr).get? 1).getD [])
            = true
        ∧ containsStr msg fairLawn.name = true :=
  (claim3_location_validator_contract.1 fairLawn
    ("50 Oak Ave, Paramus, NJ 07652, USA".data)).2.2 (by decide)

/-- C4 fails on the code: for "123 Main St, Fair Lawn, NJ 07410, USA" the
validator accepts, but the detected segment is "Fair Lawn" (the second
comma segment), not "Fair Lawn, NJ 07410" as the claim states. -/
theorem claim4_counterexample :
    (validateLocation fairLawn ("123 Main St, Fair Lawn, NJ 07410, USA".data)).isValid = true
    ∧ (validateLocation fairLawn ("123 Main St, Fair Lawn, NJ 07410, USA".data)).detectedCity
      = "Fair Lawn".data
    ∧ ("Fair Lawn".data : Str) ≠ "Fair Lawn, NJ 07410".data := by
  decide

/-- C4 amended: on "123 Main St, Fair Lawn, NJ 07410, USA" with
municipality "Fair Lawn" the validator returns isValid=true with detected
segment "Fair Lawn". -/
theorem claim4_detected_segment_amended :
    validateLocation fairLawn ("123 Main St, Fair Lawn, NJ 07410, USA".data)
      = { isValid := true, detectedCity := "Fair Lawn".data, reason := none } := by
  decide

/-- C5: the price-level mapper's own table documents free→0, but the
JS `|| null` coalescing treats the looked-up 0 as falsy, so the code
returns null for "PRICE_LEVEL_FREE", contradicting the table; the other
four labels map as documented, and absent or unrecognized labels map to
null without an error. -/
theorem claim5_price_level_free_bug :
    priceLevelMap.lookup ("PRICE_LEVEL_FREE".data) = some 0
    ∧ convertPriceLevel (some ("PRICE_LEVEL_FREE".data)) = none
    ∧ convertPriceLevel (some ("PRICE_LEVEL_INEXPENSIVE".data)) = some 1
    ∧ convertPriceLevel (some ("PRICE_LEVEL_MODERATE".data)) = some 2
    ∧ convertPriceLevel (some ("PRICE_LEVEL_EXPENSIVE".data)) = some 3
    ∧ convertPriceLevel (some ("PRICE_LEVEL_VERY_EXPENSIVE".data)) = some 4
    ∧ convertPriceLevel none = none
    ∧ convertPriceLevel (some ("totally_bogus".data)) = none := by
  decide

/-- C8: the duplicate check returns false with no persistence handle,
returns false (fail-open) when the existence query errors, and when the
query succeeds returns true exactly when a row with that identifier
exists; the embedding passes the pool as a pure read-only query, so no
mutation of persistence state is possible. -/
theorem claim8_duplicate_checker_contract :
    (∀ gid : Option Str, checkDuplicate gid none = false)
    ∧ (∀ (gid : Option Str) (q : Pool) (e : Str),
        q gid = Except.error e → checkDuplicate gid (some q) = false)
    ∧ (∀ (gid : Option Str) (q : Pool) (rows : List Nat),
        q gid = Except.ok rows →
        checkDuplicate gid (some q) = decide (0 < rows.length)) := by
  refine ⟨fun _ => rfl, ?_, ?_⟩
  · intro gid q e h
    simp [checkDuplicate, h]
  · intro gid q rows h
    simp [checkDuplicate, h]

/-- Closed instances of C8 at concrete pools. -/
theorem claim8_witness :
    checkDuplicate (some joeId) none = false
    ∧ checkDuplicate (some joeId) (some failPool) = false
    ∧ checkDuplicate (some joeId) (some hitPool) = decide (0 < ([1] : List Nat).length) :=
  ⟨claim8_duplicate_checker_contract.1 (some joeId),
   claim8_duplicate_checker_contract.2.1 (some joeId) failPool ("boom".data) rfl,
   claim8_duplicate_checker_contract.2.2 (some joeId) hitPool [1] rfl⟩

/-! Structural lemmas about the slug computation, used for C6. -/

lemma isLowerAlnum_hyphen : isLowerAlnum '-' = false := by
  decide

lemma alnum_ne_hyphen {c : Char} (h : isLowerAlnum c = true) : c ≠ '-' := by
  intro he
  rw [he] at h
  exact absurd h (by decide)

/-- Adjacent characters of the collapsed string are never both hyphens. -/
def noAdjHyphens (a b : Char) : Prop := ¬(a = '-' ∧ b = '-')

lemma head_replaceRunsAux_true :
    ∀ (l : Str) (c : Char), (replaceRunsAux true l).head? = some c → isLowerAlnum c = true := by
  intro l
  induction l with
  | nil =>
    intro c h
    simp [replaceRunsAux] at h
  | cons d ds ih =>
    intro c h
    by_cases hd : isLowerAlnum d
    · simp [replaceRunsAux, hd] at h
      rw [← h]
      exact hd
    · simp [replaceRunsAux, hd] at h
      exact ih c h

lemma mem_replaceRunsAux :
    ∀ (flag : Bool) (l : Str) (c : Char), c ∈ replaceRunsAux flag l → goodChar c = true := by
  intro flag l
  induction l generalizing flag with
  | nil =>
    intro c h
    simp [replaceRunsAux] at h
  | cons d ds ih =>
    intro c h
    by_cases hd : isLowerAlnum d
    · simp [replaceRunsAux, hd] at h
      rcases h with h | h
      · subst h
        simp [goodChar, hd]
      · exact ih false c h
    · cases flag with
      | true =>
        simp [replaceRunsAux, hd] at h
        exact ih true c h
      | false =>
        simp [replaceRunsAux, hd] at h
        rcases h with h | h
        · subst h
          decide
        · exact ih true c h

lemma any_replaceRunsAux :
    ∀ (flag : Bool) (l : Str), l.any isLowerAlnum = true →
      (replaceRunsAux flag l).any isLowerAlnum = true := by
  intro flag l
  induction l generalizing flag with
  | nil =>
    intro h
    simp at h
  | cons d ds ih =>
    intro h
    by_cases hd : isLowerAlnum d
    · simp [replaceRunsAux, hd]
    · have hds : ds.any isLowerAlnum = true := by
        simp [List.any_cons, hd] at h
        exact List.any_eq_true.mpr h
      cases flag with
      | true =>
        simp [replaceRunsAux, hd]
        have := ih true hds
        simpa using this
      | false =>
        simp [replaceRunsAux, hd, List.any_cons, isLowerAlnum_hyphen]
        have := ih true hds
        simpa using this

lemma chain_replaceRunsAux :
    ∀ (flag : Bool) (l : Str), List.Chain' noAdjHyphens (replaceRunsAux flag l) := by
  intro flag l
  induction l generalizing flag with
  | nil =>
    simp [replaceRunsAux]
  | cons d ds ih =>
    by_cases hd : isLowerAlnum d
    · simp only [replaceRunsAux, hd, if_true]
      refine List.chain'_cons'.mpr ⟨?_, ih false⟩
      intro y hy hc
      exact absurd hc.1 (alnum_ne_hyphen hd)
    · cases flag with
      | true =>
        simpa [replaceRunsAux, hd] using ih true
      | false =>
        have hrw : replaceRunsAux false (d :: ds) = '-' :: replaceRunsAux true ds := by
          simp [replaceRunsAux, hd]
        rw [hrw]
        refine List.chain'_cons'.mpr ⟨?_, ih true⟩
        intro y hy hc
        have hy' : (replaceRunsAux true ds).head? = some y := Option.mem_def.mp hy
        exact absurd hc.2 (alnum_ne_hyphen (head_replaceRunsAux_true ds y hy'))

lemma dropOneLead_good (m : Str)
    (hall : ∀ c ∈ m, goodChar c = true)
    (hchain : List.Chain' noAdjHyphens m)
    (hany : m.any isLowerAlnum = true) :
    (∀ c ∈ dropOneLead m, goodChar c = true)
    ∧ List.Chain' noAdjHyphens (dropOneLead m)
    ∧ (dropOneLead m).any isLowerAlnum = true
    ∧ (dropOneLead m).head? ≠ some '-'
    ∧ ((dropOneLead m).getLast? = m.getLast? ∨ dropOneLead m = []) := by
  cases m with
  | nil =>
    simp at hany
  | cons a t =>
    by_cases ha : a = '-'
    · subst ha
      have hd : dropOneLead ('-' :: t) = t := by simp [dropOneLead]
      rw [hd]
      have hchain' := List.chain'_cons'.mp hchain
      refine ⟨?_, hchain'.2, ?_, ?_, ?_⟩
      · intro c hc
        exact hall c (List.mem_cons_of_mem _ hc)
      · simpa [List.any_cons, isLowerAlnum_hyphen] using hany
      · intro hh
        have := hchain'.1 '-' (Option.mem_def.mpr hh)
        exact this ⟨rfl, rfl⟩
      · cases t with
        | nil => exact Or.inr rfl
        | cons b u =>
          exact Or.inl (List.getLast?_cons_cons ..).symm
    · have hd : dropOneLead (a :: t) = a :: t := by simp [dropOneLead, ha]
      rw [hd]
      refine ⟨hall, hchain, hany, ?_, Or.inl rfl⟩
      intro hh
      simp at hh
      exact ha hh

lemma noAdjHyphens_flip : ∀ a b : Char, noAdjHyphens a b → noAdjHyphens b a := by
  intro a b h hc
  exact h ⟨hc.2, hc.1⟩

lemma chain_reverse_noAdj {m : Str} (h : List.Chain' noAdjHyphens m) :
    List.Chain' noAdjHyphens m.reverse := by
  rw [List.chain'_reverse]
  exact h.imp (fun a b hab => noAdjHyphens_flip a b hab)

lemma stripEdge_good (m : Str)
    (hall : ∀ c ∈ m, goodChar c = true)
    (hchain : List.Chain' noAdjHyphens m)
    (hany : m.any isLowerAlnum = true) :
    (∀ c ∈ stripEdge m, goodChar c = true)
    ∧ (stripEdge m).any isLowerAlnum = true
    ∧ (stripEdge m).head? ≠ some '-'
    ∧ (stripEdge m).getLast? ≠ some '-' := by
  obtain ⟨g1, c1, a1, h1, l1⟩ := dropOneLead_good m hall hchain hany
  have g2 : ∀ c ∈ (dropOneLead m).reverse, goodChar c = true := by
    intro c hc
    exact g1 c (List.mem_reverse.mp hc)
  have c2 : List.Chain' noAdjHyphens (dropOneLead m).reverse := chain_reverse_noAdj c1
  have a2 : (dropOneLead m).reverse.any isLowerAlnum = true := by
    simpa [List.any_reverse] using a1
  obtain ⟨g3, c3, a3, h3, l3⟩ := dropOneLead_good (dropOneLead m).reverse g2 c2 a2
  have hse : stripEdge m = (dropOneLead ((dropOneLead m).reverse)).reverse := rfl
  rw [hse]
  refine ⟨?_, ?_, ?_, ?_⟩
  · intro c hc
    exact g3 c (List.mem_reverse.mp hc)
  · simpa [List.any_reverse] using a3
  · rw [List.head?_reverse]
    rcases l3 with h | h
    · rw [h, List.getLast?_reverse]
      exact h1
    · rw [h]
      simp
  · rw [List.getLast?_reverse]
    exact h3

lemma slugBase_good (name : Str) (h : (toLowerStr name).any isLowerAlnum = true) :
    (∀ c ∈ slugBase name, goodChar c = true)
    ∧ (slugBase name).any isLowerAlnum = true
    ∧ (slugBase name).head? ≠ some '-'
    ∧ (slugBase name).getLast? ≠ some '-' :=
  stripEdge_good _ (fun c hc => mem_replaceRunsAux false _ c hc)
    (chain_replaceRunsAux false _) (any_replaceRunsAux false _ h)

lemma getLast?_append_right (l l2 : Str) (c : Char) (h : l2.getLast? = some c) :
    (l ++ l2).getLast? = some c := by
  rw [List.getLast?_append, h]
  rfl

lemma head?_append_left {l : Str} (l2 : Str) (h : l ≠ []) : (l ++ l2).head? = l.head? := by
  cases l with
  | nil => exact absurd rfl h
  | cons a t => rfl

lemma mem_of_getLast?_eq {l : Str} {c : Char} (h : l.getLast? = some c) : c ∈ l := by
  induction l with
  | nil => simp at h
  | cons a t ih =>
    cases t with
    | nil =>
      simp [List.getLast?] at h
      simp [h]
    | cons b u =>
      rw [List.getLast?_cons_cons] at h
      exact List.mem_cons_of_mem _ (ih h)

lemma getLast?_cons_isSome (z : Char) (zs : Str) : ∃ w, (z :: zs).getLast? = some w := by
  induction zs generalizing z with
  | nil => exact ⟨z, rfl⟩
  | cons b u ih =>
    obtain ⟨w, hw⟩ := ih b
    exact ⟨w, by rw [List.getLast?_cons_cons]; exact hw⟩

/-- C6 fails on the code: with the all-punctuation display name "!!!" the
produced slug is "-abcd1234", which starts with a hyphen; and with the
external identifier "ABCD1234xyz" the identifier suffix is appended
unsanitized, so the slug "joe-s-bakery-ABCD1234" contains a character
outside [a-z0-9-].  Both candidates have a non-empty identifier. -/
theorem claim6_counterexample :
    processedSlug (processBusiness fairLawn bangPlace none okEnrich 0) = some ("-abcd1234".data)
    ∧ (("-abcd1234".data : Str).head? = some '-')
    ∧ processedSlug (processBusiness fairLawn upperIdPlace none okEnrich 0)
        = some ("joe-s-bakery-ABCD1234".data)
    ∧ 'A' ∈ ("joe-s-bakery-ABCD1234".data : Str)
    ∧ goodChar 'A' = false := by
  decide

/-- C6 amended: the slug of every record produced by the normalizer is
exactly the lower-cased (fallback-applied) display name with every run of
characters outside [a-z0-9] replaced by one hyphen and one leading/one
trailing hyphen removed, followed by a hyphen and the first 8 characters
of the external identifier; and whenever the lower-cased name contains at
least one character in [a-z0-9] and the identifier's first 8 characters
all lie in [a-z0-9], the slug is non-empty, contains no characters
outside [a-z0-9-], and neither starts nor ends with a hyphen. -/
theorem claim6_slug_shape_amended :
    (∀ (muni : Municipality) (place : Place) (pool : Option Pool) (enrich : Enrichment)
       (now : Nat) (pid : Str) (rec : BusinessRecord),
      place.id = some pid →
      (processBusiness muni place pool enrich now).1 = Except.ok (some rec) →
      rec.slug = buildSlug (jsOrStr place.displayName ("Unknown".data)) pid)
    ∧ (∀ (nm pid : Str),
        (toLowerStr nm).any isLowerAlnum = true →
        (pid.take 8).all isLowerAlnum = true →
        pid ≠ [] →
        buildSlug nm pid = slugBase nm ++ '-' :: pid.take 8
          ∧ buildSlug nm pid ≠ []
          ∧ (∀ c ∈ buildSlug nm pid, goodChar c = true)
          ∧ (buildSlug nm pid).head? ≠ some '-'
          ∧ (buildSlug nm pid).getLast? ≠ some '-') := by
  constructor
  · intro muni place pool enrich now pid rec hid h
    obtain ⟨pid2, hid2, hr⟩ := processBusiness_ok_shape _ _ _ _ _ _ h
    rw [hid] at hid2
    injection hid2 with hp
    subst hp
    subst hr
    rfl
  · intro nm pid hnm h8 hne
    obtain ⟨g, a, hh, _⟩ := slugBase_good nm hnm
    have hbase_ne : slugBase nm ≠ [] := by
      rcases List.any_eq_true.mp a with ⟨c, hc, _⟩
      exact List.ne_nil_of_mem hc
    have ht8 : pid.take 8 ≠ [] := by
      cases pid with
      | nil => exact absurd rfl hne
      | cons x xs => simp [List.take]
    refine ⟨rfl, ?_, ?_, ?_, ?_⟩
    · simp [buildSlug]
    · intro c hc
      rw [buildSlug] at hc
      rcases List.mem_append.mp hc with hc | hc
      · exact g c hc
      · rcases List.mem_cons.mp hc with hc | hc
        · subst hc
          decide
        · have hcan := List.all_eq_true.mp h8 c hc
          simp [goodChar, hcan]
    · rw [buildSlug, head?_append_left _ hbase_ne]
      exact hh
    · obtain ⟨z, zs, hz⟩ : ∃ z zs, pid.take 8 = z :: zs := by
        cases htk : pid.take 8 with
        | nil => exact absurd htk ht8
        | cons z zs => exact ⟨z, zs, rfl⟩
      rw [buildSlug, hz]
      obtain ⟨w, hw⟩ := getLast?_cons_isSome z zs
      have hfull : (slugBase nm ++ '-' :: z :: zs).getLast? = some w := by
        apply getLast?_append_right
        rw [List.getLast?_cons_cons]
        exact hw
      rw [hfull]
      have hwt : w ∈ pid.take 8 := by
        rw [hz]
        exact mem_of_getLast?_eq hw
      have hwalnum := List.all_eq_true.mp h8 w hwt
      intro he
      injection he with he2
      subst he2
      exact absurd hwalnum (by decide)

/-- Closed instances of C6's amended slug properties at the bakery data. -/
theorem claim6_witness :
    (mkRecord fairLawn basePlace okEnrich 0 joeId).slug
        = buildSlug (jsOrStr basePlace.displayName ("Unknown".data)) joeId
    ∧ (buildSlug joeName joeId = slugBase joeName ++ '-' :: joeId.take 8
        ∧ buildSlug joeName joeId ≠ []
        ∧ (∀ c ∈ buildSlug joeName joeId, goodChar c = true)
        ∧ (buildSlug joeName joeId).head? ≠ some '-'
        ∧ (buildSlug joeName joeId).getLast? ≠ some '-') :=
  ⟨claim6_slug_shape_amended.1 fairLawn basePlace none okEnrich 0 joeId
      (mkRecord fairLawn basePlace okEnrich 0 joeId) rfl rfl,
   claim6_slug_shape_amended.2 joeName joeId (by decide) (by decide) (by decide)⟩

/-- C2: a candidate rejected by the duplicate check or by location
validation produces no record and triggers zero generation calls; in
particular a single duplicate candidate yields an empty result, and a
single candidate whose second address segment is "Paramus" (municipality
"Fair Lawn") yields an empty result with zero generation calls. -/
theorem claim2_rejected_candidates_no_enrichment :
    (∀ (muni : Municipality) (place : Place) (pool : Option Pool) (enrich : Enrichment)
       (now : Nat),
      (checkDuplicate place.id pool = true
        ∨ (validateLocation muni (jsOrStr place.formattedAddress [])).isValid = false) →
      processBusiness muni place pool enrich now = (Except.ok none, 0))
    ∧ (∀ (search : Str → Nat → List Place) (place : Place) (pool : Option Pool)
         (enrichOf : Place → Enrichment) (now : Nat),
        search ("bakery".data) 1 = [place] →
        checkDuplicate place.id pool = true →
        scrapeBusinessesByTypes fairLawn search pool enrichOf now ["bakery".data] 1
          = (Except.ok [], 0))
    ∧ (∀ (search : Str → Nat → List Place) (place : Place) (pool : Option Pool)
         (enrichOf : Place → Enrichment) (now : Nat),
        search ("bakery".data) 1 = [place] →
        (((splitComma (jsOrStr place.formattedAddress [])).map trimStr).get? 1).getD []
          = "Paramus".data →
        scrapeBusinessesByTypes fairLawn search pool enrichOf now ["bakery".data] 1
          = (Except.ok [], 0)) := by
  have main : ∀ (muni : Municipality) (place : Place) (pool : Option Pool)
      (enrich : Enrichment) (now : Nat),
      (checkDuplicate place.id pool = true
        ∨ (validateLocation muni (jsOrStr place.formattedAddress [])).isValid = false) →
      processBusiness muni place pool enrich now = (Except.ok none, 0) := by
    intro muni place pool enrich now h
    rcases h with hdup | hval
    · simp [processBusiness, hdup]
    · simp [processBusiness, hval]
  refine ⟨main, ?_, ?_⟩
  · intro search place pool enrichOf now hs hdup
    have hpb := main fairLawn place pool (enrichOf place) now (Or.inl hdup)
    simp [scrapeBusinessesByTypes, hs, processPlaces, hpb]
  · intro search place pool enrichOf now hs hseg
    have hval : (validateLocation fairLawn (jsOrStr place.formattedAddress [])).isValid
        = false := by
      show containsStr
          (toLowerStr
            ((((splitComma (jsOrStr place.formattedAddress [])).map trimStr).get? 1).getD []))
          (toLowerStr fairLawn.name) = false
      rw [hseg]
      decide
    have hpb := main fairLawn place pool (enrichOf place) now (Or.inr hval)
    simp [scrapeBusinessesByTypes, hs, processPlaces, hpb]

/-- Closed instances of C2: a Paramus candidate is skipped with zero
generation calls, and the two single-candidate pipelines return empty. -/
theorem claim2_witness :
    processBusiness fairLawn paramusPlace none okEnrich 0 = (Except.ok none, 0)
    ∧ scrapeBusinessesByTypes fairLawn joeSearch (some hitPool) (fun _ => okEnrich) 0
        ["bakery".data] 1 = (Except.ok [], 0)
    ∧ scrapeBusinessesByTypes fairLawn (fun _ _ => [paramusPlace]) none (fun _ => okEnrich) 0
        ["bakery".data] 1 = (Except.ok [], 0) :=
  ⟨claim2_rejected_candidates_no_enrichment.1 fairLawn paramusPlace none okEnrich 0
      (Or.inr (by decide)),
   claim2_rejected_candidates_no_enrichment.2.1 joeSearch basePlace (some hitPool)
      (fun _ => okEnrich) 0 rfl (by decide),
   claim2_rejected_candidates_no_enrichment.2.2 (fun _ _ => [paramusPlace]) paramusPlace none
      (fun _ => okEnrich) 0 rfl (by decide)⟩

/-- C10: a candidate with no external identifier that passes the
duplicate check and location validation makes the two generation calls
and then throws while building the slug (no identifier fallback exists),
and the thrown error aborts the whole batch; by contrast a missing
display name falls back to "Unknown", a missing primary type falls back
to "business", and a missing address falls back to the empty string (the
candidate is then merely skipped by validation, not crashed on). -/
theorem claim10_missing_identifier_aborts :
    (∀ (muni : Municipality) (place : Place) (pool : Option Pool) (enrich : Enrichment)
       (now : Nat),
      place.id = none →
      checkDuplicate place.id pool = false →
      (validateLocation muni (jsOrStr place.formattedAddress [])).isValid = true →
      processBusiness muni place pool enrich now = (Except.error (), 2))
    ∧ (∀ (muni : Municipality) (place : Place) (pool : Option Pool)
         (enrichOf : Place → Enrichment) (now : Nat) (search : Str → Nat → List Place)
         (t : Str) (n : Nat),
        place.id = none →
        checkDuplicate place.id pool = false →
        (validateLocation muni (jsOrStr place.formattedAddress [])).isValid = true →
        search t n = [place] →
        (scrapeBusinessesByTypes muni search pool enrichOf now [t] n).1 = Except.error ())
    ∧ (∀ (place : Place) (pool : Option Pool) (enrich : Enrichment) (now : Nat) (pid : Str),
        place.id = some pid →
        place.displayName = none →
        place.primaryType = none →
        checkDuplicate place.id pool = false →
        (validateLocation fairLawn (jsOrStr place.formattedAddress [])).isValid = true →
        ∃ rec, (processBusiness fairLawn place pool enrich now).1 = Except.ok (some rec)
          ∧ rec.name = "Unknown".data
          ∧ rec.subcategory = "business".data)
    ∧ (∀ (place : Place) (pool : Option Pool) (enrich : Enrichment) (now : Nat),
        place.formattedAddress = none →
        checkDuplicate place.id pool = false →
        processBusiness fairLawn place pool enrich now = (Except.ok none, 0)) := by
  have main : ∀ (muni : Municipality) (place : Place) (pool : Option Pool)
      (enrich : Enrichment) (now : Nat),
      place.id = none →
      checkDuplicate place.id pool = false →
      (validateLocation muni (jsOrStr place.formattedAddress [])).isValid = true →
      processBusiness muni place pool enrich now = (Except.error (), 2) := by
    intro muni place pool enrich now hid hdup hval
    rw [hid] at hdup
    unfold processBusiness
    rw [hid]
    simp [hdup, hval]
  refine ⟨main, ?_, ?_, ?_⟩
  · intro muni place pool enrichOf now search t n hid hdup hval hs
    have hpb := main muni place pool (enrichOf place) now hid hdup hval
    simp [scrapeBusinessesByTypes, hs, processPlaces, hpb]
  · intro place pool enrich now pid hid hname htype hdup hval
    rw [hid] at hdup
    refine ⟨mkRecord fairLawn place enrich now pid, ?_, ?_, ?_⟩
    · unfold processBusiness
      rw [hid]
      simp [hdup, hval]
    · simp [mkRecord, hname, jsOrStr]
    · simp [mkRecord, htype, jsOrStr]
  · intro place pool enrich now haddr hdup
    have hval : (validateLocation fairLawn (jsOrStr place.formattedAddress [])).isValid
        = false := by
      rw [haddr]
      decide
    simp [processBusiness, hdup, hval]

/-- Closed instances of C10 at concrete candidates with missing fields. -/
theorem claim10_witness :
    processBusiness fairLawn noIdPlace none okEnrich 0 = (Except.error (), 2)
    ∧ (scrapeBusinessesByTypes fairLawn (fun _ _ => [noIdPlace]) none (fun _ => okEnrich) 0
        ["bakery".data] 1).1 = Except.error ()
    ∧ (∃ rec, (processBusiness fairLawn bareTypePlace none okEnrich 0).1 = Except.ok (some rec)
        ∧ rec.name = "Unknown".data
        ∧ rec.subcategory = "business".data)
    ∧ processBusiness fairLawn noAddrPlace none okEnrich 0 = (Except.ok none, 0) :=
  ⟨claim10_missing_identifier_aborts.1 fairLawn noIdPlace none okEnrich 0 rfl rfl (by decide),
   claim10_missing_identifier_aborts.2.1 fairLawn noIdPlace none (fun _ => okEnrich) 0
      (fun _ _ => [noIdPlace]) ("bakery".data) 1 rfl rfl (by decide) rfl,
   claim10_missing_identifier_aborts.2.2.1 bareTypePlace none okEnrich 0 joeId rfl rfl rfl
      rfl (by decide),
   claim10_missing_identifier_aborts.2.2.2 noAddrPlace none okEnrich 0 rfl rfl⟩

/-- C1 fails on the code at its own scenario: the pipeline on the bakery
candidate produces exactly one record, but its slug is
"joe-s-bakery-abcd1234" (the apostrophe of "Joe's Bakery" becomes a
hyphen), which does not start with "joes-bakery-" as the claim states. -/
theorem claim1_slug_prefix_counterexample :
    scrapedSlug (scrapeBusinessesByTypes fairLawn joeSearch (some emptyPool)
        (fun _ => okEnrich) 0 ["bakery".data] 1)
      = some ("joe-s-bakery-abcd1234".data)
    ∧ isPrefixOfStr ("joes-bakery-".data) ("joe-s-bakery-abcd1234".data) = false := by
  decide

/-- C1 amended: for every pipeline run on ["bakery"] with cap 1 and a
persistence handle in which the search returns exactly one candidate with
identifier "abcd1234xyz", name "Joe's Bakery", address "10 Main St, Fair
Lawn, NJ 07410, USA" and primary type "bakery", the duplicate check
reports false and both enrichment calls succeed, the result is one record
with category "Food & Dining", a slug starting with "joe-s-bakery-" and
ending with "abcd1234", and status "pending". -/
theorem claim1_pipeline_amended :
    ∀ (search : Str → Nat → List Place) (q : Pool) (enrichOf : Place → Enrichment)
      (place : Place) (now : Nat) (d k : Str),
      place.id = some joeId →
      place.displayName = some joeName →
      place.formattedAddress = some joeAddr →
      place.primaryType = some ("bakery".data) →
      search ("bakery".data) 1 = [place] →
      checkDuplicate place.id (some q) = false →
      (enrichOf place).descriptionResult = Except.ok d →
      (enrichOf place).keywordsResult = Except.ok k →
      ∃ rec,
        (scrapeBusinessesByTypes fairLawn search (some q) enrichOf now ["bakery".data] 1).1
          = Except.ok [rec]
        ∧ rec.category = "Food & Dining".data
        ∧ isPrefixOfStr ("joe-s-bakery-".data) rec.slug = true
        ∧ ("abcd1234".data : Str).isSuffixOf rec.slug = true
        ∧ rec.status = "pending".data := by
  intro search q enrichOf place now d k hid hname haddr htype hs hdup hdesc hkey
  rw [hid] at hdup
  have hval : (validateLocation fairLawn (jsOrStr place.formattedAddress [])).isValid
      = true := by
    rw [haddr]
    decide
  have hpb : processBusiness fairLawn place (some q) (enrichOf place) now
      = (Except.ok (some (mkRecord fairLawn place (enrichOf place) now joeId)), 2) := by
    unfold processBusiness
    rw [hid]
    simp [hdup, hval]
  refine ⟨mkRecord fairLawn place (enrichOf place) now joeId, ?_, ?_, ?_, ?_, ?_⟩
  · simp [scrapeBusinessesByTypes, hs, processPlaces, hpb]
  · have hc : (mkRecord fairLawn place (enrichOf place) now joeId).category
        = categorizeType place.primaryType := rfl
    rw [hc, htype]
    decide
  · have hsl : (mkRecord fairLawn place (enrichOf place) now joeId).slug
        = buildSlug (jsOrStr place.displayName ("Unknown".data)) joeId := rfl
    rw [hsl, hname]
    decide
  · have hsl : (mkRecord fairLawn place (enrichOf place) now joeId).slug
        = buildSlug (jsOrStr place.displayName ("Unknown".data)) joeId := rfl
    rw [hsl, hname]
    decide
  · rfl

/-- Closed instance of C1's amended end-to-end scenario. -/
theorem claim1_witness :
    ∃ rec,
      (scrapeBusinessesByTypes fairLawn joeSearch (some emptyPool) (fun _ => okEnrich) 0
          ["bakery".data] 1).1 = Except.ok [rec]
      ∧ rec.category = "Food & Dining".data
      ∧ isPrefixOfStr ("joe-s-bakery-".data) rec.slug = true
      ∧ ("abcd1234".data : Str).isSuffixOf rec.slug = true
      ∧ rec.status = "pending".data :=
  claim1_pipeline_amended joeSearch emptyPool (fun _ => okEnrich) basePlace 0
    ("A friendly neighborhood bakery.".data) ("bakery, fair lawn bakery, fresh bread".data)
    rfl rfl rfl rfl rfl (by decide) rfl rfl

/-- C7 fails on the code: the record carries `scraped_at: new Date()`, so
two runs of the normalizer on the identical candidate and enrichment at
different instants produce records that are not identical (both runs do
produce a record). -/
theorem claim7_counterexample :
    processedRec (processBusiness fairLawn basePlace (some emptyPool) okEnrich 0)
      ≠ processedRec (processBusiness fairLawn basePlace (some emptyPool) okEnrich 1)
    ∧ (processedRec (processBusiness fairLawn basePlace (some emptyPool) okEnrich 0)).isSome
      = true := by
  decide

/-- C7 amended: the normalizer is deterministic up to the ingestion
timestamp: two runs on the identical RawCandidate, persistence handle and
EnrichmentResult produce the identical slug and records identical in
every field except `scraped_at`. -/
theorem claim7_normalizer_deterministic_amended :
    ∀ (muni : Municipality) (place : Place) (pool : Option Pool) (enrich : Enrichment)
      (now now2 : Nat) (r r2 : BusinessRecord),
      (processBusiness muni place pool enrich now).1 = Except.ok (some r) →
      (processBusiness muni place pool enrich now2).1 = Except.ok (some r2) →
      r.slug = r2.slug ∧ { r with scraped_at := 0 } = { r2 with scraped_at := 0 } := by
  intro muni place pool enrich now now2 r r2 h1 h2
  obtain ⟨pid, hid, hr⟩ := processBusiness_ok_shape _ _ _ _ _ _ h1
  obtain ⟨pid2, hid2, hr2⟩ := processBusiness_ok_shape _ _ _ _ _ _ h2
  rw [hid] at hid2
  injection hid2 with hp
  subst hp
  subst hr
  subst hr2
  exact ⟨rfl, rfl⟩

/-- Closed instance of C7's amended determinism at two distinct instants. -/
theorem claim7_witness :
    ∃ r r2 : BusinessRecord,
      (processBusiness fairLawn basePlace (some emptyPool) okEnrich 0).1 = Except.ok (some r)
      ∧ (processBusiness fairLawn basePlace (some emptyPool) okEnrich 5).1 = Except.ok (some r2)
      ∧ r.slug = r2.slug
      ∧ { r with scraped_at := 0 } = { r2 with scraped_at := 0 } := by
  have h1 : (processBusiness fairLawn basePlace (some emptyPool) okEnrich 0).1
      = Except.ok (some (mkRecord fairLawn basePlace okEnrich 0 joeId)) := rfl
  have h2 : (processBusiness fairLawn basePlace (some emptyPool) okEnrich 5).1
      = Except.ok (some (mkRecord fairLawn basePlace okEnrich 5 joeId)) := rfl
  obtain ⟨hs, hr⟩ := claim7_normalizer_deterministic_amended fairLawn basePlace
    (some emptyPool) okEnrich 0 5 _ _ h1 h2
  exact ⟨_, _, h1, h2, hs, hr⟩

/-- C9 fails on the code in its zip clause: two candidates identical
except for the third comma segment of their address get different zip
fields, so the zip IS parsed from the address (the city and state clauses
do hold, see the amended theorem). -/
theorem claim9_counterexample :
    processedZip (processBusiness fairLawn basePlace none okEnrich 0) = some ("NJ 07410".data)
    ∧ processedZip (processBusiness fairLawn zipBPlace none okEnrich 0)
        = some ("OTHERZIP99".data)
    ∧ ("NJ 07410".data : Str) ≠ "OTHERZIP99".data := by
  decide

/-- C9 amended: for every surviving candidate, street is the trimmed
first comma segment of the formatted address, city is forced to the
configured municipality name, state is forced to the configured state
truncated to 20 characters, and zip is parsed from the address: it is the
trimmed third comma segment (empty if absent) truncated to 10 characters. -/
theorem claim9_address_fields_amended :
    ∀ (muni : Municipality) (place : Place) (pool : Option Pool) (enrich : Enrichment)
      (now : Nat) (rec : BusinessRecord),
      (processBusiness muni place pool enrich now).1 = Except.ok (some rec) →
      rec.street
          = jsOrStr (((splitComma (jsOrStr place.formattedAddress [])).get? 0).map trimStr) []
        ∧ rec.city = muni.name
        ∧ rec.state = muni.state.take 20
        ∧ rec.zip
          = (jsOrStr (((splitComma (jsOrStr place.formattedAddress [])).get? 2).map trimStr)
              []).take 10 := by
  intro muni place pool enrich now rec h
  obtain ⟨pid, hid, hr⟩ := processBusiness_ok_shape _ _ _ _ _ _ h
  subst hr
  exact ⟨rfl, rfl, rfl, rfl⟩

/-- Closed instance of C9's amended address-field policy. -/
theorem claim9_witness :
    (mkRecord fairLawn basePlace okEnrich 0 joeId).street
        = jsOrStr (((splitComma (jsOrStr basePlace.formattedAddress [])).get? 0).map trimStr) []
      ∧ (mkRecord fairLawn basePlace okEnrich 0 joeId).city = fairLawn.name
      ∧ (mkRecord fairLawn basePlace okEnrich 0 joeId).state = fairLawn.state.take 20
      ∧ (mkRecord fairLawn basePlace okEnrich 0 joeId).zip
        = (jsOrStr (((splitComma (jsOrStr basePlace.formattedAddress [])).get? 2).map trimStr)
            []).take 10 :=
  claim9_address_fields_amended fairLawn basePlace none okEnrich 0
    (mkRecord fairLawn basePlace okEnrich 0 joeId) rfl
